import Mathlib

/-!
Verification development for the feature-normalization and
demographic-enrichment pipeline of the restaurant-grade application.

The embedding models the Python scalar values that can appear in a raw
restaurant record, and translates, from `src/predictor.py`:
  `_normalize_boro`, `_get_demo_for_location`, `_extract_base_fields`,
  `_build_feature_df`,
and from `src/utils.py`:
  `normalize_borough`, `build_feature_vector_from_raw`
together with the import of `lookup_zip_demo` from `src/data_loader.py`.
Demographic lookup tables (built at module load from a CSV that is data,
not code) are modelled as explicit association lists passed in.
-/

/-- A Python scalar value as it can appear in a raw restaurant record:
`None`, a float NaN, an int, a finite float (modelled as a rational),
a string, or a bool. -/
inductive PyVal where
  | none
  | nanV
  | int (n : Int)
  | float (q : ℚ)
  | str (s : String)
  | bool (b : Bool)
  deriving DecidableEq, Repr

/-- Python truthiness: `bool(v)`. Note `float("nan")` is truthy. -/
def pyTruthy : PyVal → Bool
  | PyVal.none => false
  | PyVal.nanV => true
  | PyVal.int n => n ≠ 0
  | PyVal.float q => q ≠ 0
  | PyVal.str s => s ≠ ""
  | PyVal.bool b => b

/-- `pd.isna(v)` on scalars: true exactly for `None` and float NaN. -/
def pyIsNa : PyVal → Bool
  | PyVal.none => true
  | PyVal.nanV => true
  | _ => false

/-- Python `a or b`: the first operand if truthy, else the second. -/
def pyOr (a b : PyVal) : PyVal :=
  if pyTruthy a then a else b

/-- Python `str(v)`. The decimal rendering of a finite float is modelled
by the rational's `toString`; no claim in this development evaluates
`str` on a float, so only totality and non-emptiness of that case matter. -/
def pyStr : PyVal → String
  | PyVal.none => "None"
  | PyVal.nanV => "nan"
  | PyVal.int n => toString n
  | PyVal.float q => toString q
  | PyVal.str s => s
  | PyVal.bool b => if b then "True" else "False"

/-!
String primitives are re-implemented structurally over the character
list (`String.data`), because the library versions recurse on byte
positions and do not reduce inside the kernel. They model the Python
`str` methods the source uses (`strip`, `lower`, `upper`). -/

/-- Python `s.strip()`: drop leading and trailing whitespace. -/
def strTrim (s : String) : String :=
  String.mk (((s.data.dropWhile Char.isWhitespace).reverse.dropWhile
    Char.isWhitespace).reverse)

/-- Python `s.lower()` (ASCII). -/
def strLower (s : String) : String :=
  String.mk (s.data.map Char.toLower)

/-- Python `s.upper()` (ASCII). -/
def strUpper (s : String) : String :=
  String.mk (s.data.map Char.toUpper)

/-- Split a character list at every occurrence of `sep`. -/
def splitOnCharAux (sep : Char) : List Char → List Char → List (List Char)
  | [], acc => [acc.reverse]
  | c :: rest, acc =>
    if c = sep then acc.reverse :: splitOnCharAux sep rest []
    else splitOnCharAux sep rest (c :: acc)

/-- Split a character list on a separator character. -/
def splitOnChar (sep : Char) (cs : List Char) : List (List Char) :=
  splitOnCharAux sep cs []

/-- Numeric value of a (possibly empty) list of decimal digits. -/
def digitsVal (cs : List Char) : Nat :=
  cs.foldl (fun a c => a * 10 + (c.toNat - 48)) 0

/-- Is the character list entirely decimal digits (possibly empty)? -/
def allDigits (cs : List Char) : Bool :=
  cs.all Char.isDigit

/-- Parse a nonempty all-digit character list. -/
def parseUnsignedDigits (cs : List Char) : Option Nat :=
  if cs.length > 0 && allDigits cs then some (digitsVal cs) else Option.none

/-- Strip one optional leading sign; return (isNegative, rest). -/
def parseSign : List Char → Bool × List Char
  | '-' :: r => (true, r)
  | '+' :: r => (false, r)
  | r => (false, r)

/-- Parse the mantissa of a Python float literal: `123`, `123.`,
`123.45` or `.45`. -/
def parseMantissa (cs : List Char) : Option ℚ :=
  match splitOnChar '.' cs with
  | [ip] => (parseUnsignedDigits ip).map (fun n => (n : ℚ))
  | [ip, fp] =>
    if (ip.length > 0 || fp.length > 0) && allDigits ip && allDigits fp then
      some ((digitsVal ip : ℚ) + (digitsVal fp : ℚ) / (10 ^ fp.length))
    else Option.none
  | _ => Option.none

/-- Parse a finite Python float literal as `float(s)` accepts it
(strip, optional sign, mantissa, optional exponent). The non-finite
literals `inf`/`nan` are not produced (a parse failure models the cases
this development never needs to evaluate). -/
def parsePyFloat (s : String) : Option ℚ :=
  let (neg, r) := parseSign (strTrim s).data
  let rLow := r.map (fun c => if c = 'E' then 'e' else c)
  let signedOf : ℚ → ℚ := fun q => if neg then -q else q
  match splitOnChar 'e' rLow with
  | [m] => (parseMantissa m).map signedOf
  | [m, ex] =>
    match parseMantissa m, parseSign ex with
    | some q, (eneg, ed) =>
      (parseUnsignedDigits ed).map
        (fun n => signedOf (if eneg then q / (10 ^ n) else q * (10 ^ n)))
    | _, _ => Option.none
  | _ => Option.none

/-- Python `float(v)`: `Option.none` models a raised exception. -/
def pyFloat : PyVal → Option ℚ
  | PyVal.none => Option.none
  | PyVal.nanV => Option.none
  | PyVal.int n => some (n : ℚ)
  | PyVal.float q => some q
  | PyVal.str s => parsePyFloat s
  | PyVal.bool b => some (if b then 1 else 0)

/-- Truncation toward zero, as Python `int()` applied to a float. -/
def truncOfRat (q : ℚ) : Int :=
  if 0 ≤ q then q.floor else -((-q).floor)

/-- Parse a Python int literal (strip, optional sign, digits). -/
def parsePyInt (s : String) : Option Int :=
  let (neg, r) := parseSign (strTrim s).data
  (parseUnsignedDigits r).map (fun n => if neg then -(n : Int) else (n : Int))

/-- Python `int(v)`: `Option.none` models a raised exception. -/
def pyInt : PyVal → Option Int
  | PyVal.none => Option.none
  | PyVal.nanV => Option.none
  | PyVal.int n => some n
  | PyVal.float q => some (truncOfRat q)
  | PyVal.str s => parsePyInt s
  | PyVal.bool b => some (if b then 1 else 0)

/-- Python `str.title()` restricted to its behaviour on alphabetic runs:
the first letter of each run is upper-cased, the rest lower-cased. -/
def pyTitle (s : String) : String :=
  String.mk (s.toList.foldl
    (fun (acc : List Char × Bool) c =>
      (acc.1 ++ [if c.isAlpha then (if acc.2 then c.toLower else c.toUpper) else c],
       c.isAlpha))
    ([], false)).1

/-- A raw restaurant record: a string-keyed mapping of Python scalars. -/
def RawRecord := List (String × PyVal)

/-- Python `raw.get(k, d)`. -/
def rawGetD (raw : RawRecord) (k : String) (d : PyVal) : PyVal :=
  (List.lookup k raw).getD d

/-- Python `raw.get(k)` (default `None`). -/
def rawGet (raw : RawRecord) (k : String) : PyVal :=
  rawGetD raw k PyVal.none

/-! ## predictor.py -/

/-- The string-matching chain of `predictor._normalize_boro`, applied to
the stripped input `b`. -/
def normBoroStr (b : String) : String :=
  if strLower b = "bronx" then "Bronx"
  else if strLower b = "brooklyn" then "Brooklyn"
  else if strLower b = "manhattan" then "Manhattan"
  else if strLower b = "queens" then "Queens"
  else if strLower b = "staten island" ∨ strLower b = "statenisland" then "Staten Island"
  else b

/-- `predictor._normalize_boro`: `None`/falsy/NaN input yields
`"Unknown"`; otherwise the stripped input is matched, lower-cased,
against the five canonical names (plus `"statenisland"`), and an
unmatched string is returned as-is (stripped, original case). -/
def _normalize_boro (boro : PyVal) : String :=
  if ¬ pyTruthy boro ∨ pyIsNa boro then "Unknown"
  else normBoroStr (strTrim (pyStr boro))

/-- One row of demographic values: the nine numeric columns aggregated
from `df_merged_big.csv` (`population` .. `indexscore`). -/
structure DemoRow where
  population : ℚ
  nyc_poverty_rate : ℚ
  median_income : ℚ
  perc_white : ℚ
  perc_black : ℚ
  perc_asian : ℚ
  perc_other : ℚ
  perc_hispanic : ℚ
  indexscore : ℚ
  deriving DecidableEq, Repr

/-- The module-level lookup state of `predictor.py`: `ZIP_LOOKUP`,
`BORO_LOOKUP` and `GLOBAL_FALLBACK`, built once from the CSV data.
Modelled as association lists since the CSV is data, not code. -/
structure DemoTables where
  zipLookup : List (String × DemoRow)
  boroLookup : List (String × DemoRow)
  globalFallback : DemoRow

/-- The dict returned by `_get_demo_for_location`: nine demographic
values plus the two missingness flags. -/
structure DemoResult where
  row : DemoRow
  pop_missing : Int
  demo_missing : Int
  deriving DecidableEq, Repr

/-- `predictor._get_demo_for_location`: three-tier fallback.
Tier 1 requires the stripped zip to be truthy (nonempty) and a key of
`ZIP_LOOKUP`; tier 2 requires the normalized borough to be a key of
`BORO_LOOKUP`; tier 3 is the global fallback. -/
def _get_demo_for_location (T : DemoTables) (zipcode : Option String)
    (boro : PyVal) : DemoResult :=
  let z : Option String := zipcode.map strTrim
  let b_norm := _normalize_boro boro
  let zrow : Option DemoRow :=
    match z with
    | some zs => if zs = "" then Option.none else List.lookup zs T.zipLookup
    | Option.none => Option.none
  match zrow with
  | some row => ⟨row, 0, 0⟩
  | Option.none =>
    match List.lookup b_norm T.boroLookup with
    | some row => ⟨row, 1, 1⟩
    | Option.none => ⟨T.globalFallback, 1, 1⟩

/-- The `or`-chain `raw.get("boro") or raw.get("borough") or raw.get("Boro")`. -/
def boroChain (raw : RawRecord) : PyVal :=
  pyOr (rawGet raw "boro") (pyOr (rawGet raw "borough") (rawGet raw "Boro"))

/-- The `or`-chain over the zip-like keys in `_extract_base_fields`. -/
def zipChain (raw : RawRecord) : PyVal :=
  pyOr (rawGet raw "zipcode")
    (pyOr (rawGet raw "zip")
      (pyOr (rawGet raw "postal_code") (rawGet raw "postalCode")))

/-- Zip extraction: `str(zipcode).strip()` when the chain is not `None`. -/
def zipOf (raw : RawRecord) : Option String :=
  match zipChain raw with
  | PyVal.none => Option.none
  | v => some (strTrim (pyStr v))

/-- The `or`-chain over the cuisine-like keys, ending in `"Unknown"`. -/
def cuisineChain (raw : RawRecord) : PyVal :=
  pyOr (rawGet raw "cuisine_description")
    (pyOr (rawGet raw "cuisine")
      (pyOr (rawGet raw "type") (PyVal.str "Unknown")))

/-- `raw.get("violation_code") or "NONE"`. -/
def vioChain (raw : RawRecord) : PyVal :=
  pyOr (rawGet raw "violation_code") (PyVal.str "NONE")

/-- Critical-flag coercion in `_extract_base_fields`: a string becomes 1
iff it strips/upper-cases to `"CRITICAL"` (else 0); any other value goes
through `int()` with exceptions collapsed to 0. -/
def critOf (raw : RawRecord) : Int :=
  match rawGetD raw "critical_flag" (PyVal.int 0) with
  | PyVal.str s => if strUpper (strTrim s) = "CRITICAL" then 1 else 0
  | v => (pyInt v).getD 0

/-- Score coercion in `_extract_base_fields`: `None`/NaN defaults to
10.0, anything else goes through `float()`, whose exception propagates
(`Except.error`). -/
def scoreOf (raw : RawRecord) : Except Unit ℚ :=
  let scoreV := rawGetD raw "score" PyVal.none
  if pyIsNa scoreV then Except.ok 10
  else
    match pyFloat scoreV with
    | some q => Except.ok q
    | Option.none => Except.error ()

/-- The dict returned by `_extract_base_fields`. `boro`, `cuisine` and
`violation_code` are still raw Python values at this stage. -/
structure BaseFields where
  score : ℚ
  boro : PyVal
  zipcode : Option String
  cuisine_description : PyVal
  violation_code : PyVal
  critical_flag : Int
  deriving DecidableEq, Repr

/-- `predictor._extract_base_fields`: the only fallible step is the
score coercion. -/
def _extract_base_fields (raw : RawRecord) : Except Unit BaseFields :=
  (scoreOf raw).map (fun score =>
    { score := score
      boro := boroChain raw
      zipcode := zipOf raw
      cuisine_description := cuisineChain raw
      violation_code := vioChain raw
      critical_flag := critOf raw })

/-- The one-row feature frame built by `_build_feature_df`, after its
dtype fixes (`astype(str)` on the categoricals, `astype(int)` on the
flag). Every schema field is present and typed by construction. -/
structure Features where
  score : ℚ
  nyc_poverty_rate : ℚ
  median_income : ℚ
  perc_white : ℚ
  perc_black : ℚ
  perc_asian : ℚ
  perc_other : ℚ
  perc_hispanic : ℚ
  indexscore : ℚ
  population : ℚ
  pop_missing : Int
  demo_missing : Int
  boro : String
  zipcode : String
  cuisine_description : String
  violation_code : String
  critical_flag : Int
  deriving DecidableEq, Repr

/-- The assembly step of `_build_feature_df` on extracted base fields:
demographic resolution, borough normalization, `""` for a `None` zip,
and `str()` casts on the categorical columns. -/
def assembleFeatures (T : DemoTables) (base : BaseFields) : Features :=
  let demo := _get_demo_for_location T base.zipcode base.boro
  { score := base.score
    nyc_poverty_rate := demo.row.nyc_poverty_rate
    median_income := demo.row.median_income
    perc_white := demo.row.perc_white
    perc_black := demo.row.perc_black
    perc_asian := demo.row.perc_asian
    perc_other := demo.row.perc_other
    perc_hispanic := demo.row.perc_hispanic
    indexscore := demo.row.indexscore
    population := demo.row.population
    pop_missing := demo.pop_missing
    demo_missing := demo.demo_missing
    boro := _normalize_boro base.boro
    zipcode := base.zipcode.getD ""
    cuisine_description := pyStr base.cuisine_description
    violation_code := pyStr base.violation_code
    critical_flag := base.critical_flag }

/-- `predictor._build_feature_df`: extract base fields, then assemble
the full feature row. An exception from extraction propagates. -/
def _build_feature_df (T : DemoTables) (raw : RawRecord) : Except Unit Features :=
  (_extract_base_fields raw).map (assembleFeatures T)

/-! ## utils.py and data_loader.py -/

/-- The synonym table inside `utils.normalize_borough`. -/
def boroughMapping : List (String × String) :=
  [("manhattan", "Manhattan"), ("new york", "Manhattan"), ("ny", "Manhattan"),
   ("bronx", "Bronx"),
   ("brooklyn", "Brooklyn"), ("kings", "Brooklyn"), ("kings county", "Brooklyn"),
   ("queens", "Queens"), ("queens county", "Queens"),
   ("staten island", "Staten Island"), ("statenisl", "Staten Island"),
   ("staten", "Staten Island"), ("richmond", "Staten Island"),
   ("richmond county", "Staten Island")]

/-- `utils.normalize_borough`: falsy input yields `"Unknown"`; otherwise
the input is stringified, stripped and lower-cased, looked up in the
synonym table, and title-cased as a fallback. -/
def normalize_borough (boro : PyVal) : String :=
  if ¬ pyTruthy boro then "Unknown"
  else
    let b := strLower (strTrim (pyStr boro))
    (List.lookup b boroughMapping).getD (pyTitle b)

/-- The top-level names defined by the `data_loader` module
(`src/data_loader.py`): its imports, path constants and functions.
`from src.data_loader import lookup_zip_demo` succeeds iff
`"lookup_zip_demo"` is among them. -/
def dataLoaderModuleNames : List String :=
  ["pd", "os", "st", "BASE_DIR", "DATA_DIR",
   "RESTAURANT_DATA_PATH", "NFH_DATA_PATH",
   "load_restaurant_data", "load_nfh_data", "load_merged_data", "get_data"]

/-- Whether the import at the top of `utils.py` section 6 resolves. -/
def utilsImportOk : Bool :=
  List.contains dataLoaderModuleNames "lookup_zip_demo"

/-- The body of `utils.build_feature_vector_from_raw`, parametric in the
imported `lookup_zip_demo` function it calls for demographics. -/
def build_feature_vector_core (lookup_zip_demo : String → Option DemoRow)
    (raw : RawRecord) : Features :=
  let borough := normalize_borough
    (pyOr (rawGet raw "boro") (pyOr (rawGet raw "borough") (PyVal.str "Unknown")))
  let zipcode :=
    let z := strTrim (pyStr (pyOr (rawGet raw "zipcode") (PyVal.str "00000")))
    if z = "" then "00000" else z
  let cuisine :=
    let c := strLower (strTrim (pyStr (pyOr (rawGet raw "cuisine_description")
      (pyOr (rawGet raw "cuisine") (PyVal.str "Other")))))
    if c = "" then "other" else c
  let score := (pyFloat (rawGet raw "score")).getD 12
  let crit := (pyInt (pyOr (rawGet raw "critical_flag")
    (pyOr (rawGet raw "critical_flag_bin")
      (pyOr (rawGet raw "critical_flag_int") (PyVal.int 0))))).getD 0
  let vio :=
    let v := strTrim (pyStr (pyOr (rawGet raw "violation_code") (PyVal.str "00X")))
    if v = "" then "00X" else v
  match lookup_zip_demo zipcode with
  | some row =>
    { score := score, nyc_poverty_rate := row.nyc_poverty_rate
      median_income := row.median_income, perc_white := row.perc_white
      perc_black := row.perc_black, perc_asian := row.perc_asian
      perc_other := row.perc_other, perc_hispanic := row.perc_hispanic
      indexscore := row.indexscore, population := row.population
      pop_missing := 0, demo_missing := 0
      boro := borough, zipcode := zipcode, cuisine_description := cuisine
      violation_code := vio, critical_flag := crit }
  | Option.none =>
    { score := score, nyc_poverty_rate := 1/5
      median_income := 30000, perc_white := 3/10
      perc_black := 3/10, perc_asian := 3/20
      perc_other := 1/20, perc_hispanic := 1/5
      indexscore := 4, population := 50000
      pop_missing := 1, demo_missing := 1
      boro := borough, zipcode := zipcode, cuisine_description := cuisine
      violation_code := vio, critical_flag := crit }

/-- `utils.build_feature_vector_from_raw` as callable from the running
program: the call is only reachable if the module-level import of
`lookup_zip_demo` from `data_loader` resolved; `Except.error` models the
`ImportError` raised when it does not. -/
def build_feature_vector_from_raw (lookup_zip_demo : String → Option DemoRow)
    (raw : RawRecord) : Except Unit Features :=
  if utilsImportOk then Except.ok (build_feature_vector_core lookup_zip_demo raw)
  else Except.error ()

deriving instance DecidableEq for Except

/-! ## Concrete data for witnesses and counterexamples -/

/-- An all-zero demographic row. -/
def row0 : DemoRow := ⟨0, 0, 0, 0, 0, 0, 0, 0, 0⟩

/-- A distinguishable demographic row for the ZIP tier. -/
def rowA : DemoRow := ⟨100, 1, 2, 3, 4, 5, 6, 7, 8⟩

/-- A distinguishable demographic row for the borough tier. -/
def rowB : DemoRow := ⟨200, 11, 12, 13, 14, 15, 16, 17, 18⟩

/-- A trivial table set: empty lookups, zero global fallback. -/
def Ttriv : DemoTables := ⟨[], [], row0⟩

/-- A small table set with one ZIP row and one borough row. -/
def Tw : DemoTables := ⟨[("10001", rowA)], [("Brooklyn", rowB)], row0⟩

/-- The feature row `_build_feature_df` produces for the empty record
with the trivial tables. -/
def fvEmpty : Features :=
  { score := 10, nyc_poverty_rate := 0, median_income := 0, perc_white := 0
    perc_black := 0, perc_asian := 0, perc_other := 0, perc_hispanic := 0
    indexscore := 0, population := 0, pop_missing := 1, demo_missing := 1
    boro := "Unknown", zipcode := "", cuisine_description := "Unknown"
    violation_code := "NONE", critical_flag := 0 }

/-- Like `fvEmpty` but with the critical flag set. -/
def fvCrit : Features := { fvEmpty with critical_flag := 1 }

/-- The feature row for `{"boro": "BROOKLYN "}` with the trivial tables. -/
def fvBrooklyn : Features := { fvEmpty with boro := "Brooklyn" }

/-! ## Helper lemmas -/

/-- A key that differs from every key of an association list is not found. -/
lemma lookup_eq_none_of_keys_ne {α : Type} (l : List (String × α)) (k : String)
    (h : ∀ p ∈ l, p.1 ≠ k) : List.lookup k l = Option.none := by
  induction l with
  | nil => rfl
  | cons p t ih =>
    have hp : p.1 ≠ k := h p (List.mem_cons_self p t)
    have hk : (k == p.1) = false := by
      simp only [beq_eq_false_iff_ne, ne_eq]
      exact fun e => hp e.symm
    cases p with
    | mk a v =>
      simp only [List.lookup]
      rw [hk]
      exact ih (fun q hq => h q (List.mem_cons_of_mem _ hq))

/-- Inversion for a successful `_build_feature_df`: the score coercion
succeeded and the result is the assembly of the extracted base fields. -/
lemma build_ok_elim {T : DemoTables} {raw : RawRecord} {fv : Features}
    (h : _build_feature_df T raw = Except.ok fv) :
    ∃ q, scoreOf raw = Except.ok q ∧
      fv = assembleFeatures T
        { score := q, boro := boroChain raw, zipcode := zipOf raw
          cuisine_description := cuisineChain raw, violation_code := vioChain raw
          critical_flag := critOf raw } := by
  unfold _build_feature_df _extract_base_fields at h
  cases hs : scoreOf raw with
  | error e => rw [hs] at h; simp [Except.map] at h
  | ok q =>
    rw [hs] at h
    simp only [Except.map, Except.ok.injEq] at h
    exact ⟨q, rfl, h.symm⟩

/-- Full case analysis of `_normalize_boro`: falsy/NaN input yields
`"Unknown"`; otherwise the stripped, lower-cased input selects the
matching canonical borough, and an unmatched string passes through
stripped and unchanged. -/
lemma normalize_boro_cases (v : PyVal) :
    ((pyTruthy v = false ∨ pyIsNa v = true) → _normalize_boro v = "Unknown") ∧
    (pyTruthy v = true → pyIsNa v = false →
      ((strLower (strTrim (pyStr v)) = "bronx" →
         _normalize_boro v = "Bronx") ∧
       (strLower (strTrim (pyStr v)) = "brooklyn" →
         _normalize_boro v = "Brooklyn") ∧
       (strLower (strTrim (pyStr v)) = "manhattan" →
         _normalize_boro v = "Manhattan") ∧
       (strLower (strTrim (pyStr v)) = "queens" →
         _normalize_boro v = "Queens") ∧
       ((strLower (strTrim (pyStr v)) = "staten island" ∨
         strLower (strTrim (pyStr v)) = "statenisland") →
         _normalize_boro v = "Staten Island") ∧
       (strLower (strTrim (pyStr v)) ≠ "bronx" →
        strLower (strTrim (pyStr v)) ≠ "brooklyn" →
        strLower (strTrim (pyStr v)) ≠ "manhattan" →
        strLower (strTrim (pyStr v)) ≠ "queens" →
        strLower (strTrim (pyStr v)) ≠ "staten island" →
        strLower (strTrim (pyStr v)) ≠ "statenisland" →
        _normalize_boro v = strTrim (pyStr v)))) := by
  constructor
  · intro hf
    unfold _normalize_boro
    refine if_pos ?_
    rcases hf with hf | hf
    · exact Or.inl (by rw [hf]; exact Bool.false_ne_true)
    · exact Or.inr hf
  · intro ht hn
    have hred : _normalize_boro v = normBoroStr (strTrim (pyStr v)) := by
      unfold _normalize_boro
      refine if_neg ?_
      rw [ht, hn]
      simp
    refine ⟨?_, ?_, ?_, ?_, ?_, ?_⟩
    · intro hb
      rw [hred]
      unfold normBoroStr
      rw [hb]
      simp
    · intro hb
      rw [hred]
      unfold normBoroStr
      rw [hb]
      simp
    · intro hb
      rw [hred]
      unfold normBoroStr
      rw [hb]
      simp
    · intro hb
      rw [hred]
      unfold normBoroStr
      rw [hb]
      simp
    · intro hb
      rw [hred]
      unfold normBoroStr
      rcases hb with hb | hb <;> rw [hb] <;> simp
    · intro hne1 hne2 hne3 hne4 hne5 hne6
      rw [hred]
      unfold normBoroStr
      rw [if_neg hne1, if_neg hne2, if_neg hne3, if_neg hne4,
        if_neg (not_or.mpr ⟨hne5, hne6⟩)]

/-! ## Claims -/

/-- Claim C9: the demographic resolver's two missingness flags are
always equal — both 0 at the ZIP tier and both 1 at the borough and
global tiers. -/
theorem c9_flags_always_equal (T : DemoTables) (z : Option String) (b : PyVal) :
    (_get_demo_for_location T z b).pop_missing =
      (_get_demo_for_location T z b).demo_missing := by
  simp only [_get_demo_for_location]
  split <;> (try split) <;> rfl

/-- Claim C10: `utils.build_feature_vector_from_raw` can never execute
successfully: the name `lookup_zip_demo` it imports is not among the
names the `data_loader` module defines, so the call site is unreachable
(every invocation is the modelled `ImportError`). -/
theorem c10_utils_builder_unreachable :
    utilsImportOk = false ∧
    ∀ (lookup_zip_demo : String → Option DemoRow) (raw : RawRecord),
      build_feature_vector_from_raw lookup_zip_demo raw = Except.error () :=
  ⟨rfl, fun _ _ => rfl⟩

/-- Claim C1 counterexample: the feature-vector builder raises
(`Except.error`) on a record whose score is a non-numeric string —
`float("abc")` raises `ValueError` in `_extract_base_fields`. -/
theorem c1_counterexample :
    _build_feature_df Ttriv [("score", PyVal.str "abc")] = Except.error () := by
  decide

/-- Claim C1 (amended): for every raw record whose score value, when
present and non-null, is convertible by `float()`, the builder returns a
complete feature row (every schema field present, non-null and typed by
the `Features` structure) without raising. -/
theorem c1_amended_totality (T : DemoTables) (raw : RawRecord)
    (h : pyIsNa (rawGetD raw "score" PyVal.none) = true ∨
      (pyFloat (rawGetD raw "score" PyVal.none)).isSome = true) :
    ∃ fv : Features, _build_feature_df T raw = Except.ok fv := by
  unfold _build_feature_df _extract_base_fields
  cases hs : scoreOf raw with
  | error e =>
    exfalso
    simp only [scoreOf] at hs
    rcases h with h | h
    · simp [h] at hs
    · rw [Option.isSome_iff_exists] at h
      obtain ⟨q, hq⟩ := h
      by_cases hna : pyIsNa (rawGetD raw "score" PyVal.none) = true
      · simp [hna] at hs
      · simp [hna, hq] at hs
  | ok q =>
    refine ⟨assembleFeatures T
      { score := q, boro := boroChain raw, zipcode := zipOf raw
        cuisine_description := cuisineChain raw, violation_code := vioChain raw
        critical_flag := critOf raw }, ?_⟩
    rfl

/-- Claim C1 witness: the empty record satisfies the score hypothesis
and the builder succeeds on it. -/
theorem c1_amended_totality_witness :
    (pyIsNa (rawGetD [] "score" PyVal.none) = true ∨
      (pyFloat (rawGetD [] "score" PyVal.none)).isSome = true) ∧
    ∃ fv : Features, _build_feature_df Ttriv [] = Except.ok fv :=
  ⟨Or.inl (by decide), c1_amended_totality Ttriv [] (Or.inl (by decide))⟩

/-- Claim C2 counterexample: on the empty record the live extraction
pipeline produces zipcode `""`, violation code `"NONE"` and cuisine
`"Unknown"` — not the claimed `"00000"`, `"00X"` and `"other"`. -/
theorem c2_counterexample :
    (_build_feature_df Ttriv []).map
        (fun fv => (fv.zipcode, fv.violation_code, fv.cuisine_description,
          fv.score, fv.critical_flag)) =
      Except.ok ("", "NONE", "Unknown", (10 : ℚ), (0 : Int)) ∧
    ("" : String) ≠ "00000" ∧ ("NONE" : String) ≠ "00X" ∧
    ("Unknown" : String) ≠ "other" := by
  decide

/-- Claim C2 (amended): extracting the semantic fields from the empty
record through the predictor pipeline yields zipcode `""` (the zip stays
`None` in extraction and is rendered `""` in the assembled vector),
violation_code `"NONE"`, cuisine_description `"Unknown"`, score `10.0`
and critical_flag `0`; the claimed sentinels `"00000"`/`"00X"`/`"other"`
belong to the unreachable utils builder, which would also give score
`12.0` rather than `10.0`. -/
theorem c2_amended_empty_defaults :
    (_build_feature_df Ttriv []).map
        (fun fv => (fv.zipcode, fv.violation_code, fv.cuisine_description,
          fv.score, fv.critical_flag)) =
      Except.ok ("", "NONE", "Unknown", (10 : ℚ), (0 : Int)) ∧
    (build_feature_vector_core (fun _ => Option.none) []).zipcode = "00000" ∧
    (build_feature_vector_core (fun _ => Option.none) []).violation_code = "00X" ∧
    (build_feature_vector_core (fun _ => Option.none) []).cuisine_description = "other" ∧
    (build_feature_vector_core (fun _ => Option.none) []).score = 12 := by
  decide

/-- Claim C3: the demographic resolver follows the strict three-tier
fallback — ZIP tier with flags (0,0) when the stripped ZIP is a key of
the ZIP lookup, else borough tier with flags (1,1) when the normalized
borough is a key of the borough aggregate, else the global aggregate
with flags (1,1). The hypothesis that no key of the ZIP table is the
empty string reflects the documented table shape (keys are canonical
ZIP strings). -/
theorem c3_fallback_tiers (T : DemoTables)
    (hk : ∀ p ∈ T.zipLookup, p.1 ≠ "") (z b : String) :
    (∀ row, List.lookup (strTrim z) T.zipLookup = some row →
      _get_demo_for_location T (some z) (PyVal.str b) = ⟨row, 0, 0⟩) ∧
    (List.lookup (strTrim z) T.zipLookup = Option.none →
      (∀ row, List.lookup (_normalize_boro (PyVal.str b)) T.boroLookup = some row →
        _get_demo_for_location T (some z) (PyVal.str b) = ⟨row, 1, 1⟩) ∧
      (List.lookup (_normalize_boro (PyVal.str b)) T.boroLookup = Option.none →
        _get_demo_for_location T (some z) (PyVal.str b) =
          ⟨T.globalFallback, 1, 1⟩)) := by
  have hnil : List.lookup "" T.zipLookup = Option.none :=
    lookup_eq_none_of_keys_ne T.zipLookup "" (fun p hp => hk p hp)
  constructor
  · intro row hrow
    have hz : ¬ strTrim z = "" := by
      intro e
      rw [e, hnil] at hrow
      cases hrow
    simp only [_get_demo_for_location, Option.map]
    rw [if_neg hz, hrow]
  · intro hnone
    constructor
    · intro row hrow
      simp only [_get_demo_for_location, Option.map]
      by_cases hz : strTrim z = ""
      · rw [if_pos hz, hrow]
      · rw [if_neg hz, hnone, hrow]
    · intro hnone2
      simp only [_get_demo_for_location, Option.map]
      by_cases hz : strTrim z = ""
      · rw [if_pos hz, hnone2]
      · rw [if_neg hz, hnone, hnone2]

/-- Claim C3 witness: with a one-row ZIP table whose keys are nonempty,
the resolver returns the ZIP row with both flags 0. -/
theorem c3_fallback_tiers_witness :
    (∀ p ∈ Tw.zipLookup, p.1 ≠ "") ∧
    _get_demo_for_location Tw (some "10001") (PyVal.str "x") = ⟨rowA, 0, 0⟩ :=
  ⟨by decide, (c3_fallback_tiers Tw (by decide) "10001" "x").1 rowA (by decide)⟩

/-- Claim C4 counterexample: the borough normalizer passes unmatched
strings through, so the record `{"boro": "kings"}` yields the boro value
`"kings"`, which is none of the five canonical strings nor `"Unknown"`. -/
theorem c4_counterexample :
    (_build_feature_df Ttriv [("boro", PyVal.str "kings")]).map Features.boro =
      Except.ok "kings" ∧
    ¬ (("kings" : String) = "Manhattan" ∨ ("kings" : String) = "Bronx" ∨
      ("kings" : String) = "Brooklyn" ∨ ("kings" : String) = "Queens" ∨
      ("kings" : String) = "Staten Island" ∨ ("kings" : String) = "Unknown") := by
  decide

/-- Claim C4 (amended): in a successfully built feature vector the boro
field follows the normalizer's case analysis of the raw borough chain —
`"Unknown"` for falsy/NaN input; the matching canonical borough when
the trimmed input lower-cases to a canonical name (with both
`"staten island"` and `"statenisland"` giving `"Staten Island"`); and
otherwise the trimmed raw string passed through unchanged, so strings
outside the six listed values can appear. -/
theorem c4_amended_boro_cases (T : DemoTables) (raw : RawRecord) (fv : Features)
    (h : _build_feature_df T raw = Except.ok fv) :
    ((pyTruthy (boroChain raw) = false ∨ pyIsNa (boroChain raw) = true) →
      fv.boro = "Unknown") ∧
    (pyTruthy (boroChain raw) = true → pyIsNa (boroChain raw) = false →
      ((strLower (strTrim (pyStr (boroChain raw))) = "bronx" →
         fv.boro = "Bronx") ∧
       (strLower (strTrim (pyStr (boroChain raw))) = "brooklyn" →
         fv.boro = "Brooklyn") ∧
       (strLower (strTrim (pyStr (boroChain raw))) = "manhattan" →
         fv.boro = "Manhattan") ∧
       (strLower (strTrim (pyStr (boroChain raw))) = "queens" →
         fv.boro = "Queens") ∧
       ((strLower (strTrim (pyStr (boroChain raw))) = "staten island" ∨
         strLower (strTrim (pyStr (boroChain raw))) = "statenisland") →
         fv.boro = "Staten Island") ∧
       (strLower (strTrim (pyStr (boroChain raw))) ≠ "bronx" →
        strLower (strTrim (pyStr (boroChain raw))) ≠ "brooklyn" →
        strLower (strTrim (pyStr (boroChain raw))) ≠ "manhattan" →
        strLower (strTrim (pyStr (boroChain raw))) ≠ "queens" →
        strLower (strTrim (pyStr (boroChain raw))) ≠ "staten island" →
        strLower (strTrim (pyStr (boroChain raw))) ≠ "statenisland" →
        fv.boro = strTrim (pyStr (boroChain raw))))) := by
  obtain ⟨q, _, hfv⟩ := build_ok_elim h
  subst hfv
  exact normalize_boro_cases (boroChain raw)

/-- Claim C4 witness: the canonical-match clause applied to
`{"boro": "BROOKLYN "}` yields `"Brooklyn"`, and the falsy clause
applied to the empty record yields `"Unknown"`. -/
theorem c4_amended_boro_cases_witness :
    (_build_feature_df Ttriv [("boro", PyVal.str "BROOKLYN ")] =
        Except.ok fvBrooklyn ∧
      fvBrooklyn.boro = "Brooklyn") ∧
    (_build_feature_df Ttriv [] = Except.ok fvEmpty ∧
      fvEmpty.boro = "Unknown") :=
  ⟨⟨by decide,
    ((c4_amended_boro_cases Ttriv [("boro", PyVal.str "BROOKLYN ")] fvBrooklyn
      (by decide)).2 (by decide) (by decide)).2.1 (by decide)⟩,
   ⟨by decide,
    (c4_amended_boro_cases Ttriv [] fvEmpty (by decide)).1 (Or.inl (by decide))⟩⟩

/-- Claim C5 counterexample: on the empty record the zipcode field of
the output vector is the empty string — not a non-empty string and not
the `"00000"` sentinel. -/
theorem c5_counterexample :
    (_build_feature_df Ttriv []).map Features.zipcode = Except.ok "" ∧
    ("" : String) ≠ "00000" := by
  decide

/-- Claim C5 (amended): the zipcode field of a successfully built
feature vector is the stripped stringification of the first truthy value
among the zip-like keys, and the empty string — not `"00000"` — when
that chain yields `None`; in particular it can be empty. -/
theorem c5_amended_zipcode (T : DemoTables) (raw : RawRecord) (fv : Features)
    (h : _build_feature_df T raw = Except.ok fv) :
    fv.zipcode = match zipChain raw with
      | PyVal.none => ""
      | v => strTrim (pyStr v) := by
  obtain ⟨q, _, hfv⟩ := build_ok_elim h
  subst hfv
  show (zipOf raw).getD "" = _
  unfold zipOf
  cases zipChain raw <;> rfl

/-- Claim C5 witness: a record carrying a padded zip under the `"zip"`
key gets it stripped and stringified. -/
theorem c5_amended_zipcode_witness :
    _build_feature_df Ttriv [] = Except.ok fvEmpty ∧
    fvEmpty.zipcode = (match zipChain [] with
      | PyVal.none => ""
      | v => strTrim (pyStr v)) :=
  ⟨by decide, c5_amended_zipcode Ttriv [] fvEmpty (by decide)⟩

/-- Claim C7 counterexample: the record `{"critical_flag": 5}` produces
critical_flag `5` in the output vector, which is neither 0 nor 1. -/
theorem c7_counterexample :
    (_build_feature_df Ttriv [("critical_flag", PyVal.int 5)]).map
      Features.critical_flag = Except.ok 5 ∧
    ¬ ((5 : Int) = 0 ∨ (5 : Int) = 1) := by
  decide

/-- Claim C7 (amended): in a successfully built feature vector, a string
critical-flag value yields 1 exactly when it strips and upper-cases to
`"CRITICAL"` and 0 otherwise (hence always 0 or 1 for strings); any
non-string value is cast by `int()` with failures collapsing to 0 — so
the output field can be any integer, not only 0 or 1. -/
theorem c7_amended_critical_flag (T : DemoTables) (raw : RawRecord) (fv : Features)
    (h : _build_feature_df T raw = Except.ok fv) :
    (∀ s, rawGetD raw "critical_flag" (PyVal.int 0) = PyVal.str s →
      (fv.critical_flag = (if strUpper (strTrim s) = "CRITICAL" then 1 else 0) ∧
        (fv.critical_flag = 0 ∨ fv.critical_flag = 1))) ∧
    ((∀ s, rawGetD raw "critical_flag" (PyVal.int 0) ≠ PyVal.str s) →
      fv.critical_flag =
        (pyInt (rawGetD raw "critical_flag" (PyVal.int 0))).getD 0) := by
  obtain ⟨q, _, hfv⟩ := build_ok_elim h
  subst hfv
  constructor
  · intro s hs
    constructor
    · show critOf raw = _
      unfold critOf
      rw [hs]
    · show critOf raw = 0 ∨ critOf raw = 1
      unfold critOf
      rw [hs]
      dsimp only
      by_cases hc : strUpper (strTrim s) = "CRITICAL"
      · rw [if_pos hc]; exact Or.inr rfl
      · rw [if_neg hc]; exact Or.inl rfl
  · intro hns
    show critOf raw = _
    unfold critOf
    cases hv : rawGetD raw "critical_flag" (PyVal.int 0) with
    | str s => exact absurd hv (hns s)
    | none => rfl
    | nanV => rfl
    | int n => rfl
    | float q2 => rfl
    | bool b => rfl

/-- Claim C7 witness: the builder succeeds on a record whose critical
flag is the string `"Critical"` and sets the flag to 1. -/
theorem c7_amended_critical_flag_witness :
    _build_feature_df Ttriv [("critical_flag", PyVal.str "Critical")] =
      Except.ok fvCrit ∧
    fvCrit.critical_flag =
      (if strUpper (strTrim "Critical") = "CRITICAL" then 1 else 0) :=
  ⟨by decide,
    ((c7_amended_critical_flag Ttriv [("critical_flag", PyVal.str "Critical")]
      fvCrit (by decide)).1 "Critical" (by decide)).1⟩

/-- Claim C8 counterexample: on the empty record the cuisine field is
`"Unknown"` — not the claimed lower-cased `"other"` default — and the
value `"Caribbean"` is passed through without lower-casing. -/
theorem c8_counterexample :
    (_build_feature_df Ttriv []).map Features.cuisine_description =
      Except.ok "Unknown" ∧ ("Unknown" : String) ≠ "other" ∧
    (_build_feature_df Ttriv [("cuisine", PyVal.str "Caribbean")]).map
      Features.cuisine_description = Except.ok "Caribbean" ∧
    ("Caribbean" : String) ≠ "caribbean" := by
  decide

/-- Claim C8 (amended): the cuisine field of a successfully built
feature vector is the stringification, unchanged (no lower-casing, no
trimming), of the first truthy value among the cuisine-like keys, with
default `"Unknown"` — the lower-cased `"other"` default belongs to the
unreachable utils builder. -/
theorem c8_amended_cuisine (T : DemoTables) (raw : RawRecord) (fv : Features)
    (h : _build_feature_df T raw = Except.ok fv) :
    fv.cuisine_description = pyStr (cuisineChain raw) := by
  obtain ⟨q, _, hfv⟩ := build_ok_elim h
  subst hfv
  rfl

/-- Claim C8 witness: on the empty record the cuisine field equals the
stringified chain default. -/
theorem c8_amended_cuisine_witness :
    _build_feature_df Ttriv [] = Except.ok fvEmpty ∧
    fvEmpty.cuisine_description = pyStr (cuisineChain []) :=
  ⟨by decide, c8_amended_cuisine Ttriv [] fvEmpty (by decide)⟩

/-- Claim C6 counterexample: a truthy non-string input is not mapped to
`"Unknown"` — `normalize_borough(123)` stringifies and title-cases it to
`"123"`. -/
theorem c6_counterexample :
    normalize_borough (PyVal.int 123) = "123" ∧
    ("123" : String) ≠ "Unknown" := by
  decide

/-- Claim C6 (amended): `utils.normalize_borough` lower-cases and trims
its input, maps the fixed synonyms (including "new york"/"ny" to
Manhattan, "kings"/"kings county" to Brooklyn, "richmond"/"richmond
county" to Staten Island, and the five canonical names to themselves),
title-cases and returns unmatched strings as-is, and yields `"Unknown"`
for absent/falsy input — truthy non-string input is stringified and
processed like a string rather than yielding `"Unknown"`; in particular
`"BROOKLYN "`, `"kings county"` and `"brooklyn"` all yield `"Brooklyn"`. -/
theorem c6_amended_normalize_borough :
    (∀ v : PyVal, pyTruthy v = false → normalize_borough v = "Unknown") ∧
    normalize_borough (PyVal.str "BROOKLYN ") = "Brooklyn" ∧
    normalize_borough (PyVal.str "kings county") = "Brooklyn" ∧
    normalize_borough (PyVal.str "brooklyn") = "Brooklyn" ∧
    normalize_borough (PyVal.str "new york") = "Manhattan" ∧
    normalize_borough (PyVal.str "ny") = "Manhattan" ∧
    normalize_borough (PyVal.str "kings") = "Brooklyn" ∧
    normalize_borough (PyVal.str "richmond") = "Staten Island" ∧
    normalize_borough (PyVal.str "richmond county") = "Staten Island" ∧
    normalize_borough (PyVal.str "manhattan") = "Manhattan" ∧
    normalize_borough (PyVal.str "bronx") = "Bronx" ∧
    normalize_borough (PyVal.str "queens") = "Queens" ∧
    normalize_borough (PyVal.str "staten island") = "Staten Island" ∧
    (∀ v : PyVal, pyTruthy v = true →
      List.lookup (strLower (strTrim (pyStr v))) boroughMapping = Option.none →
      normalize_borough v = pyTitle (strLower (strTrim (pyStr v)))) := by
  refine ⟨?_, by decide, by decide, by decide, by decide, by decide, by decide,
    by decide, by decide, by decide, by decide, by decide, by decide, ?_⟩
  · intro v hv
    unfold normalize_borough
    rw [hv]
    rfl
  · intro v hv hlk
    unfold normalize_borough
    rw [hv]
    dsimp only
    rw [hlk]
    rfl

/-- Claim C6 witness: the falsy and unmatched-string clauses applied at
concrete inputs. -/
theorem c6_amended_normalize_borough_witness :
    normalize_borough PyVal.none = "Unknown" ∧
    normalize_borough (PyVal.str "jersey city") =
      pyTitle (strLower (strTrim (pyStr (PyVal.str "jersey city")))) :=
  ⟨c6_amended_normalize_borough.1 PyVal.none (by decide),
    (c6_amended_normalize_borough.2.2.2.2.2.2.2.2.2.2.2.2.2) (PyVal.str "jersey city")
      (by decide) (by decide)⟩
